import Mathlib

/-!
Verification development for the duplex retry-driven TLS stream adapter in
src/ssl/mod.rs. The external TLS engine (OpenSSL) and the underlying blocking
transport are represented as deterministic oracles: infinite scripts stored in
an explicit machine state. Every adapter function below is a direct translation
of the corresponding Rust function; the unbounded retry loops take a fuel
argument and report a distinct `diverged` outcome when the fuel runs out, and
the Rust `unreachable!()` macro (task failure) is represented by a distinct
`panicked` outcome, so that success, error, panic and divergence are all
observable and mutually exclusive.
-/

namespace RustSsl

/-- Byte strings shuttled between the engine, its memory buffers and the
transport. Byte values are irrelevant to the control flow being verified. -/
abbrev Bytes := List Nat

/-- Kinds of std io errors that the adapter distinguishes. The Reader
implementation builds an error with kind EndOfFile on clean session close;
every other transport error is opaque to the adapter. -/
inductive IoErrorKind where
  | EndOfFile
  | OtherIoError

/-- Model of std io IoError: a kind plus a description string. -/
structure IoError where
  kind : IoErrorKind
  desc : String

/-- Model of the LibSslError enum of src/ssl/mod.rs lines 519 to 530: the
classification SSL_get_error assigns to the most recent engine return code. -/
inductive LibSslError where
  | ErrorNone
  | ErrorSsl
  | ErrorWantRead
  | ErrorWantWrite
  | ErrorWantX509Lookup
  | ErrorSyscall
  | ErrorZeroReturn
  | ErrorWantConnect
  | ErrorWantAccept

/-- Modelled from the spec: the SslError type of ssl::error (the error module
is not part of the provided sources). StreamError wraps a transport error,
SslSessionClosed reports clean session close, and OpenSslErrors carries the
detailed engine diagnostic fetched by SslError::get. -/
inductive SslError where
  | StreamError (e : IoError)
  | SslSessionClosed
  | OpenSslErrors (detail : Nat)

/-- Outcome of running a Rust computation in the embedding: normal return,
early error return, task failure raised by unreachable!() or fail!(), or fuel
exhaustion of a loop that did not reach a terminal classification. -/
inductive RRes (ε α : Type) where
  | ok (a : α)
  | err (e : ε)
  | panicked
  | diverged

/-- One response of the engine oracle to one session-operation attempt
(SSL_connect, SSL_read, SSL_write or SSL_do_handshake): the raw return code,
the classification SSL_get_error would give for it, the detail code
SslError::get would fetch after an ErrorSsl classification, and the ciphertext
chunks the attempt appends to the outbound memory BIO as a side effect. -/
structure EngineStep where
  ret : Int
  err : LibSslError
  detail : Nat
  out : List Bytes

/-- Complete state of one SslStream plus its two oracles. The engine script
`steps` answers the n-th session-operation attempt; `attempt` counts attempts
made. `wbioPending` holds the ciphertext chunks currently buffered in the
outbound memory BIO (each chunk is what one BIO_read call returns); `rbioFed`
records every chunk ever written into the inbound memory BIO. The transport
scripts `tIn`, `tWriteRes` and `tFlushRes` answer successive reads, writes and
flushes of the underlying stream, with `tReads`, `tWrites` and `tFlushes`
counting the calls made and `tOut` recording every chunk successfully written
to the transport. -/
structure ConnState where
  steps : Nat → EngineStep
  attempt : Nat
  wbioPending : List Bytes
  rbioFed : List Bytes
  tIn : Nat → Except IoError Bytes
  tReads : Nat
  tWriteRes : Nat → Option IoError
  tWrites : Nat
  tOut : List Bytes
  tFlushRes : Nat → Option IoError
  tFlushes : Nat

/-- Effect on the state of one engine attempt, performed before the adapter
inspects the return code: the attempt counter advances and the ciphertext the
engine produced is appended to the outbound memory BIO. -/
def stepState (s : ConnState) : ConnState :=
  { s with attempt := s.attempt + 1, wbioPending := s.wbioPending ++ (s.steps s.attempt).out }

/-- Model of self.stream.read(self.buf.as_mut_slice()): one blocking transport
read, answered by the transport script; returns the bytes placed in the
scratch buffer, or a transport error. -/
def streamRead (s : ConnState) : Except IoError Bytes × ConnState :=
  (s.tIn s.tReads, { s with tReads := s.tReads + 1 })

/-- Model of self.stream.write(chunk): one blocking transport write, answered
by the transport script; on success the chunk is appended to the observable
transport output. -/
def streamWrite (c : Bytes) (s : ConnState) : Option IoError × ConnState :=
  match s.tWriteRes s.tWrites with
  | some e => (some e, { s with tWrites := s.tWrites + 1 })
  | none => (none, { s with tWrites := s.tWrites + 1, tOut := s.tOut ++ [c] })

/-- Model of self.stream.flush(): one transport flush, answered by the
transport script. -/
def streamFlush (s : ConnState) : Option IoError × ConnState :=
  (s.tFlushRes s.tFlushes, { s with tFlushes := s.tFlushes + 1 })

/-- Model of MemBio::read on the outbound BIO (src lines 563 to 574): pops the
next buffered ciphertext chunk, or returns None when nothing is buffered
(BIO_read on an empty memory BIO returns a negative count). -/
def wbioRead (s : ConnState) : Option Bytes × ConnState :=
  match s.wbioPending with
  | [] => (none, s)
  | c :: rest => (some c, { s with wbioPending := rest })

/-- Model of MemBio::write on the inbound BIO (src lines 576 to 582): appends
the chunk read from the transport, zero-length chunks included. -/
def rbioWrite (c : Bytes) (s : ConnState) : ConnState :=
  { s with rbioFed := s.rbioFed ++ [c] }

/-- Drain loop body of SslStream::write_through (src lines 661 to 669),
written as recursion on an iteration counter so that it is structurally
recursive: each round pops one chunk from the outbound BIO and writes it to
the transport, stopping when the BIO reports nothing buffered; a transport
write error aborts the loop and is returned. Each round removes one chunk, so
a counter equal to the number of pending chunks is exact fuel. -/
def writeThroughGo : Nat → ConnState → Except IoError Unit × ConnState
  | 0, s => (.ok (), s)
  | n + 1, s =>
    match wbioRead s with
    | (none, s1) => (.ok (), s1)
    | (some c, s1) =>
      match streamWrite c s1 with
      | (some e, s2) => (.error e, s2)
      | (none, s2) => writeThroughGo n s2

/-- Model of SslStream::write_through (src lines 661 to 669). -/
def write_through (s : ConnState) : Except IoError Unit × ConnState :=
  writeThroughGo s.wbioPending.length s

/-- Model of the Writer flush implementation for SslStream (src lines 766 to
769): drain the outbound BIO through write_through, then flush the transport
itself. -/
def flush (s : ConnState) : Except IoError Unit × ConnState :=
  match write_through s with
  | (.error e, s1) => (.error e, s1)
  | (.ok _, s1) =>
    match streamFlush s1 with
    | (some e, s2) => (.error e, s2)
    | (none, s2) => (.ok (), s2)

/-- Model of SslStream::in_retry_wrapper (src lines 639 to 659). Each loop
iteration performs one engine attempt; a positive return code is returned
directly; otherwise the classification of the attempt is dispatched:
ErrorWantRead first flushes pending ciphertext (self.flush()), then performs
exactly one transport read and feeds the bytes obtained into the inbound BIO
before retrying; ErrorWantWrite flushes and retries; ErrorZeroReturn returns
Err(SslSessionClosed); ErrorSsl returns the detailed engine error; every other
classification hits the catch-all unreachable!() branch, modelled as the
panicked outcome. Transport errors raised by flush or by the transport read
are wrapped in StreamError by the try_ssl macro. -/
def in_retry_wrapper : Nat → ConnState → RRes SslError Int × ConnState
  | 0, s => (.diverged, s)
  | fuel + 1, s =>
    if 0 < (s.steps s.attempt).ret then
      (.ok (s.steps s.attempt).ret, stepState s)
    else
      match (s.steps s.attempt).err with
      | .ErrorWantRead =>
        match flush (stepState s) with
        | (.error e, s2) => (.err (.StreamError e), s2)
        | (.ok _, s2) =>
          match streamRead s2 with
          | (.error e, s3) => (.err (.StreamError e), s3)
          | (.ok chunk, s3) => in_retry_wrapper fuel (rbioWrite chunk s3)
      | .ErrorWantWrite =>
        match flush (stepState s) with
        | (.error e, s2) => (.err (.StreamError e), s2)
        | (.ok _, s2) => in_retry_wrapper fuel s2
      | .ErrorZeroReturn => (.err .SslSessionClosed, stepState s)
      | .ErrorSsl => (.err (.OpenSslErrors (s.steps s.attempt).detail), stepState s)
      | _ => (.panicked, stepState s)

/-- Model of the Reader implementation for SslStream (src lines 734 to 748):
run the retry loop on ssl.read; a positive count is returned as the number of
bytes placed; Err(SslSessionClosed) becomes an IoError with kind EndOfFile;
Err(StreamError(e)) surfaces the transport error verbatim; any other error
variant hits the catch-all unreachable!() branch of the match. -/
def sslStream_read (fuel : Nat) (s : ConnState) : RRes IoError Nat × ConnState :=
  match in_retry_wrapper fuel s with
  | (.ok len, s1) => (.ok len.toNat, s1)
  | (.err .SslSessionClosed, s1) => (.err ⟨.EndOfFile, "SSL session closed"⟩, s1)
  | (.err (.StreamError e), s1) => (.err e, s1)
  | (.err (.OpenSslErrors _), s1) => (.panicked, s1)
  | (.panicked, s1) => (.panicked, s1)
  | (.diverged, s1) => (.diverged, s1)

/-- Loop body of the Writer write implementation for SslStream (src lines 751
to 764), structurally recursive on outer-loop fuel. While the byte offset
start has not reached the end of the caller buffer: run the retry loop on
ssl.write of the remaining slice; on Ok(len) advance the offset by len and
drain pending ciphertext with write_through (whose transport error is
propagated by try!); every non-Ok outcome of the retry loop hits the
catch-all unreachable!() branch, modelled as the panicked outcome. -/
def writeLoop (ifuel : Nat) (buf : Bytes) : Nat → Nat → ConnState → RRes IoError Unit × ConnState
  | 0, start, s => if start < buf.length then (.diverged, s) else (.ok (), s)
  | fuel + 1, start, s =>
    if start < buf.length then
      match in_retry_wrapper ifuel s with
      | (.ok len, s1) =>
        match write_through s1 with
        | (.error e, s2) => (.err e, s2)
        | (.ok _, s2) => writeLoop ifuel buf fuel (start + len.toNat) s2
      | (.err _, s1) => (.panicked, s1)
      | (.panicked, s1) => (.panicked, s1)
      | (.diverged, s1) => (.diverged, s1)
    else (.ok (), s)

/-- Model of the Writer write implementation for SslStream (src lines 751 to
764): the loop starts at byte offset zero. -/
def sslStream_write (fuel ifuel : Nat) (buf : Bytes) (s : ConnState) : RRes IoError Unit × ConnState :=
  writeLoop ifuel buf fuel 0 s

/-- Instrumentation mirroring writeLoop: the list of byte counts accepted by
the successive successful retry-loop invocations during one write call, in
order. It follows exactly the same control flow as writeLoop and records
len.toNat for every Ok(len) outcome of in_retry_wrapper. -/
def writeAccepted (ifuel : Nat) (buf : Bytes) : Nat → Nat → ConnState → List Nat
  | 0, _, _ => []
  | fuel + 1, start, s =>
    if start < buf.length then
      match in_retry_wrapper ifuel s with
      | (.ok len, s1) =>
        match write_through s1 with
        | (.error _, _) => [len.toNat]
        | (.ok _, s2) => len.toNat :: writeAccepted ifuel buf fuel (start + len.toNat) s2
      | (.err _, _) => []
      | (.panicked, _) => []
      | (.diverged, _) => []
    else []

/-- Model of SslStream::renegotiate (src lines 704 to 731): SSL_renegotiate
only raises a flag inside the engine (represented by the engine script), then
the retry loop runs SSL_do_handshake; Ok(0) and any Ok code other than 1
report false, Ok(1) reports true, and every Err outcome from the retry loop is
swallowed into false. -/
def renegotiate (fuel : Nat) (s : ConnState) : RRes SslError Bool × ConnState :=
  match in_retry_wrapper fuel s with
  | (.ok code, s1) =>
    (.ok (if code = 0 then false else if code = 1 then true else false), s1)
  | (.err _, s1) => (.ok false, s1)
  | (.panicked, s1) => (.panicked, s1)
  | (.diverged, s1) => (.diverged, s1)

/-- Read-only validation context handed to a verification callback
(X509StoreContext, src lines 246 to 265): exposes the current validation
error code of the engine; the wrapped chain pointer is opaque here. -/
structure X509StoreContextModel where
  errorCode : Int

/-- Signature of user verification callbacks (src lines 139 to 141): the
pre-verification boolean and a read-only validation context, returning the
boolean that decides whether the handshake continues. -/
def VerifyCallback : Type := Bool → X509StoreContextModel → Bool

/-- Model of an engine context SSL_CTX as far as the verification bridge needs
it: the extension-data slots, indexed by integer slot index, each possibly
holding a stored verification callback, plus the configured verification
mode. -/
structure SslCtxModel where
  exData : Int → Option VerifyCallback
  verifyMode : Int

/-- Model of an engine session handle SSL as far as the verification bridge
needs it: SSL_get_SSL_CTX navigates from the session to the owning context. -/
structure SslModel where
  ctx : SslCtxModel

/-- Model of SslContext::set_verify (src lines 180 to 187): stores the
callback option into the extension slot VERIFY_IDX of the context and records
the verification mode. -/
def set_verify (verifyIdx : Int) (mode : Int) (verify : Option VerifyCallback)
    (c : SslCtxModel) : SslCtxModel :=
  { exData := fun i => if i = verifyIdx then verify else c.exData i, verifyMode := mode }

/-- Model of the extern verification-bridge entry point raw_verify (src lines
121 to 137): navigate from the in-progress session to its owning context,
fetch the stored callback from the extension slot registered at bootstrap, and
either pass the engine pre-verification result through unchanged (no callback)
or invoke the callback with the pre-verification boolean and the read-only
validation context, converting its boolean result to the C integer returned to
the engine. -/
def raw_verify (verifyIdx : Int) (ssl : SslModel) (preverify_ok : Int)
    (x509_ctx : X509StoreContextModel) : Int :=
  match ssl.ctx.exData verifyIdx with
  | none => preverify_ok
  | some verify => if verify (decide (preverify_ok ≠ 0)) x509_ctx then 1 else 0

/-- Process-wide bootstrap state for init (src lines 29 to 50): whether the
Once guard has fired, how many times the bootstrap body ran, the registered
extension slot index, how many lock tables were allocated and their size, and
whether the four locking callbacks are installed. -/
structure ProcState where
  onceDone : Bool
  bootstrapRuns : Nat
  verifyIdx : Option Int
  lockTableAllocs : Nat
  lockTableSize : Option Nat
  callbacksInstalled : Bool

/-- Process state before the first call to init. -/
def initialProc : ProcState :=
  { onceDone := false, bootstrapRuns := 0, verifyIdx := none,
    lockTableAllocs := 0, lockTableSize := none, callbacksInstalled := false }

/-- Body of the closure passed to INIT.doit (src lines 33 to 48): library
init, registration of the extension slot (the assert that the index is
non-negative fails the task when the engine hands back a negative index,
modelled as the none outcome), allocation of one lock table sized to the
engine lock count, and installation of the four locking callbacks. The engine
answers newIdx for SSL_CTX_get_ex_new_index and numLocks for
CRYPTO_num_locks. -/
def bootstrapBody (newIdx : Int) (numLocks : Nat) (p : ProcState) : Option ProcState :=
  if newIdx < 0 then none
  else
    some { p with
      bootstrapRuns := p.bootstrapRuns + 1,
      verifyIdx := some newIdx,
      lockTableAllocs := p.lockTableAllocs + 1,
      lockTableSize := some numLocks,
      callbacksInstalled := true }

/-- Model of fn init (src lines 29 to 50). Modelled from the spec: the
sync::one Once primitive (not part of the provided sources) serializes
concurrent callers and runs the closure exactly when it has not run before, so
each call is one atomic step: if the guard already fired the call is a no-op,
otherwise the bootstrap body runs and the guard fires. -/
def init (newIdx : Int) (numLocks : Nat) (p : ProcState) : Option ProcState :=
  if p.onceDone then some p
  else
    match bootstrapBody newIdx numLocks p with
    | none => none
    | some q => some { q with onceDone := true }

/-- A sequence of n calls to init starting from the fresh process state; any
interleaving of concurrent callers is some such sequence because the Once
primitive serializes them. -/
def initN (newIdx : Int) (numLocks : Nat) : Nat → Option ProcState
  | 0 => some initialProc
  | n + 1 =>
    match initN newIdx numLocks n with
    | none => none
    | some p => init newIdx numLocks p

/-- The unique process state reached by any positive number of init calls when
the engine hands back the slot index newIdx and lock count numLocks. -/
def bootedProc (newIdx : Int) (numLocks : Nat) : ProcState :=
  { onceDone := true, bootstrapRuns := 1, verifyIdx := some newIdx,
    lockTableAllocs := 1, lockTableSize := some numLocks, callbacksInstalled := true }

/-- A transport write never touches the memory BIOs, the engine attempt
counter, the engine script or the transport read counter. -/
theorem streamWrite_pres (c : Bytes) (s : ConnState) :
    (streamWrite c s).2.wbioPending = s.wbioPending ∧
    (streamWrite c s).2.rbioFed = s.rbioFed ∧
    (streamWrite c s).2.tReads = s.tReads ∧
    (streamWrite c s).2.steps = s.steps ∧
    (streamWrite c s).2.attempt = s.attempt := by
  rcases h : s.tWriteRes s.tWrites with _ | e <;> simp [streamWrite, h]

/-- The write_through drain loop only pops outbound BIO chunks and writes to
the transport: inbound BIO history, transport read counter, engine script and
attempt counter are untouched. -/
theorem writeThroughGo_pres : ∀ (n : Nat) (s : ConnState),
    (writeThroughGo n s).2.rbioFed = s.rbioFed ∧
    (writeThroughGo n s).2.tReads = s.tReads ∧
    (writeThroughGo n s).2.steps = s.steps ∧
    (writeThroughGo n s).2.attempt = s.attempt := by
  intro n
  induction n with
  | zero => intro s; simp [writeThroughGo]
  | succ n ih =>
    intro s
    simp only [writeThroughGo]
    cases hw : s.wbioPending with
    | nil => simp [wbioRead, hw]
    | cons c rest =>
      simp only [wbioRead, hw]
      rcases hres : s.tWriteRes s.tWrites with _ | e
      · simp only [streamWrite, hres]
        exact ih _
      · simp [streamWrite, hres]

/-- If the drain loop finishes without a transport error and the counter
bounds the number of pending chunks, every pending outbound chunk has been
consumed. -/
theorem writeThroughGo_ok_wbio : ∀ (n : Nat) (s s' : ConnState),
    s.wbioPending.length ≤ n → writeThroughGo n s = (.ok (), s') →
    s'.wbioPending = [] := by
  intro n
  induction n with
  | zero =>
    intro s s' hlen h
    have hnil : s.wbioPending = [] := List.eq_nil_of_length_eq_zero (Nat.le_zero.mp hlen)
    simp only [writeThroughGo, Prod.mk.injEq] at h
    rw [← h.2]
    exact hnil
  | succ n ih =>
    intro s s' hlen h
    simp only [writeThroughGo] at h
    cases hw : s.wbioPending with
    | nil =>
      simp only [wbioRead, hw, Prod.mk.injEq] at h
      rw [← h.2]
      exact hw
    | cons c rest =>
      simp only [wbioRead, hw] at h
      rcases hres : s.tWriteRes s.tWrites with _ | e
      · simp only [streamWrite, hres] at h
        refine ih _ s' ?_ h
        have := hw ▸ hlen
        simpa using this
      · simp [streamWrite, hres] at h

/-- SslStream::write_through finishing without a transport error leaves the
outbound memory BIO empty. -/
theorem write_through_ok_wbio (s s' : ConnState) (h : write_through s = (.ok (), s')) :
    s'.wbioPending = [] :=
  writeThroughGo_ok_wbio s.wbioPending.length s s' (Nat.le_refl _) h

/-- SslStream::flush finishing without an error leaves the outbound memory
BIO empty: every pending ciphertext chunk reached the transport. -/
theorem flush_ok_wbio (s s' : ConnState) (h : flush s = (.ok (), s')) :
    s'.wbioPending = [] := by
  simp only [flush] at h
  rcases hwt : write_through s with ⟨wr, s1⟩
  rw [hwt] at h
  cases wr with
  | error e => simp at h
  | ok u =>
    have h1 : s1.wbioPending = [] := write_through_ok_wbio s s1 (by rw [hwt])
    rcases hsf : s1.tFlushRes s1.tFlushes with _ | e
    · simp only [streamFlush, hsf, Prod.mk.injEq] at h
      rw [← h.2]
      exact h1
    · simp [streamFlush, hsf] at h

/-- SslStream::write_through never touches the inbound BIO history, the
transport read counter, the engine script or the attempt counter. -/
theorem write_through_pres (s : ConnState) :
    (write_through s).2.rbioFed = s.rbioFed ∧
    (write_through s).2.tReads = s.tReads ∧
    (write_through s).2.steps = s.steps ∧
    (write_through s).2.attempt = s.attempt :=
  writeThroughGo_pres s.wbioPending.length s

/-- SslStream::flush never touches the inbound BIO history, the transport
read counter, the engine script or the attempt counter, whatever its
outcome. -/
theorem flush_pres (s : ConnState) :
    (flush s).2.rbioFed = s.rbioFed ∧
    (flush s).2.tReads = s.tReads ∧
    (flush s).2.steps = s.steps ∧
    (flush s).2.attempt = s.attempt := by
  simp only [flush]
  have hpres := write_through_pres s
  rcases hwt : write_through s with ⟨wr, s1⟩
  rw [hwt] at hpres
  cases wr with
  | error e => simpa using hpres
  | ok u =>
    rcases hsf : s1.tFlushRes s1.tFlushes with _ | e <;>
      simp_all [streamFlush]

/-- The retry loop returns Ok only with a positive engine return code: the
made-progress classification. -/
theorem irw_ok_pos : ∀ (fuel : Nat) (s : ConnState) (len : Int) (s' : ConnState),
    in_retry_wrapper fuel s = (.ok len, s') → 0 < len := by
  intro fuel
  induction fuel with
  | zero => intro s len s' h; simp [in_retry_wrapper] at h
  | succ f ih =>
    intro s len s' h
    simp only [in_retry_wrapper] at h
    by_cases hret : 0 < (s.steps s.attempt).ret
    · simp only [if_pos hret, Prod.mk.injEq, RRes.ok.injEq] at h
      omega
    · simp only [if_neg hret] at h
      cases herr : (s.steps s.attempt).err with
      | ErrorWantRead =>
        simp only [herr] at h
        rcases hfl : flush (stepState s) with ⟨fr, s2⟩
        rw [hfl] at h
        cases fr with
        | error e => simp at h
        | ok u =>
          dsimp only [] at h
          rcases hrd : streamRead s2 with ⟨rr, s3⟩
          rw [hrd] at h
          cases rr with
          | error e => simp at h
          | ok chunk => exact ih _ _ _ h
      | ErrorWantWrite =>
        simp only [herr] at h
        rcases hfl : flush (stepState s) with ⟨fr, s2⟩
        rw [hfl] at h
        cases fr with
        | error e => simp at h
        | ok u => exact ih _ _ _ h
      | ErrorNone => simp [herr] at h
      | ErrorSsl => simp [herr] at h
      | ErrorWantX509Lookup => simp [herr] at h
      | ErrorSyscall => simp [herr] at h
      | ErrorZeroReturn => simp [herr] at h
      | ErrorWantConnect => simp [herr] at h
      | ErrorWantAccept => simp [herr] at h

/-- The write loop exits immediately, touching nothing, once the offset has
reached the end of the caller buffer. -/
theorem writeLoop_exit (ifuel : Nat) (buf : Bytes) (fuel start : Nat) (s : ConnState)
    (h : ¬ start < buf.length) : writeLoop ifuel buf fuel start s = (.ok (), s) := by
  cases fuel <;> simp [writeLoop, h]

/-- If the write loop returns Ok, the final offset (initial offset plus the
byte counts accepted by the successive retry-loop invocations) has reached the
end of the caller buffer. -/
theorem writeLoop_ok_sum (ifuel : Nat) (buf : Bytes) : ∀ (fuel start : Nat) (s s' : ConnState),
    writeLoop ifuel buf fuel start s = (.ok (), s') →
    buf.length ≤ start + (writeAccepted ifuel buf fuel start s).sum := by
  intro fuel
  induction fuel with
  | zero =>
    intro start s s' h
    by_cases hs : start < buf.length
    · simp [writeLoop, hs] at h
    · simp [writeAccepted]
      omega
  | succ f ih =>
    intro start s s' h
    by_cases hs : start < buf.length
    · simp only [writeLoop, if_pos hs] at h
      rcases hirw : in_retry_wrapper ifuel s with ⟨r, s1⟩
      rw [hirw] at h
      cases r with
      | ok len =>
        dsimp only [] at h
        rcases hwt : write_through s1 with ⟨wr, s2⟩
        rw [hwt] at h
        cases wr with
        | error e => simp at h
        | ok u =>
          have hrec := ih (start + len.toNat) s2 s' h
          simp only [writeAccepted, if_pos hs, hirw, hwt, List.sum_cons]
          omega
      | err e => simp at h
      | panicked => simp at h
      | diverged => simp at h
    · simp [writeAccepted, hs]
      omega

/-- Every per-iteration byte count accepted during a write call is positive:
each comes from an Ok outcome of the retry loop. -/
theorem writeAccepted_pos (ifuel : Nat) (buf : Bytes) : ∀ (fuel start : Nat) (s : ConnState)
    (l : Nat), l ∈ writeAccepted ifuel buf fuel start s → 0 < l := by
  intro fuel
  induction fuel with
  | zero => intro start s l hl; simp [writeAccepted] at hl
  | succ f ih =>
    intro start s l hl
    by_cases hs : start < buf.length
    · simp only [writeAccepted, if_pos hs] at hl
      rcases hirw : in_retry_wrapper ifuel s with ⟨r, s1⟩
      rw [hirw] at hl
      cases r with
      | ok len =>
        dsimp only [] at hl
        have hpos : 0 < len := irw_ok_pos ifuel s len s1 hirw
        rcases hwt : write_through s1 with ⟨wr, s2⟩
        rw [hwt] at hl
        cases wr with
        | error e =>
          simp only [List.mem_singleton] at hl
          omega
        | ok u =>
          simp only [List.mem_cons] at hl
          rcases hl with hl | hl
          · omega
          · exact ih _ _ _ hl
      | err e => simp at hl
      | panicked => simp at hl
      | diverged => simp at hl
    · simp [writeAccepted, hs] at hl

/-- If the write loop enters at least one iteration and returns Ok, the final
state has an empty outbound memory BIO: pending ciphertext was drained to the
transport after the last accepted chunk (as after every accepted chunk). -/
theorem writeLoop_ok_wbio (ifuel : Nat) (buf : Bytes) : ∀ (fuel start : Nat) (s s' : ConnState),
    start < buf.length → writeLoop ifuel buf fuel start s = (.ok (), s') →
    s'.wbioPending = [] := by
  intro fuel
  induction fuel with
  | zero => intro start s s' hs h; simp [writeLoop, hs] at h
  | succ f ih =>
    intro start s s' hs h
    simp only [writeLoop, if_pos hs] at h
    rcases hirw : in_retry_wrapper ifuel s with ⟨r, s1⟩
    rw [hirw] at h
    cases r with
    | ok len =>
      dsimp only [] at h
      rcases hwt : write_through s1 with ⟨wr, s2⟩
      rw [hwt] at h
      cases wr with
      | error e => simp at h
      | ok u =>
        dsimp only [] at h
        have h2 : s2.wbioPending = [] := write_through_ok_wbio s1 s2 (by rw [hwt])
        by_cases hs2 : start + len.toNat < buf.length
        · exact ih _ _ _ hs2 h
        · rw [writeLoop_exit ifuel buf f _ s2 hs2] at h
          simp only [Prod.mk.injEq] at h
          rw [← h.2]
          exact h2
    | err e => simp at h
    | panicked => simp at h
    | diverged => simp at h

/-- A fresh stream state over a given engine script: no buffered ciphertext,
fresh counters, a transport whose reads yield empty chunks and whose writes
and flushes succeed. -/
def baseState (steps : Nat → EngineStep) : ConnState :=
  { steps := steps, attempt := 0, wbioPending := [], rbioFed := [],
    tIn := fun _ => .ok [], tReads := 0,
    tWriteRes := fun _ => none, tWrites := 0, tOut := [],
    tFlushRes := fun _ => none, tFlushes := 0 }

/-- Engine script whose every attempt makes one byte of progress. -/
def quietSteps : Nat → EngineStep :=
  fun _ => { ret := 1, err := .ErrorNone, detail := 0, out := [] }

/-- Stream state over the quiet engine script. -/
def quietState : ConnState := baseState quietSteps

/-- Engine script whose every attempt reports clean session close. -/
def closedSteps : Nat → EngineStep :=
  fun _ => { ret := 0, err := .ErrorZeroReturn, detail := 0, out := [] }

/-- Stream state whose session persistently reports clean close. -/
def closedState : ConnState := baseState closedSteps

/-- The session has entered its closed terminal state: every attempt from the
current one onwards returns a non-positive code classified as
SSL_ERROR_ZERO_RETURN, which is how the engine behaves after a clean
shutdown. -/
def SessionClosedFrom (s : ConnState) : Prop :=
  ∀ n, s.attempt ≤ n → (s.steps n).ret ≤ 0 ∧ (s.steps n).err = .ErrorZeroReturn

/-- Engine script for the partial-write scenario: the first attempt accepts
two bytes and queues one ciphertext chunk, every later attempt accepts one
byte and queues another chunk. -/
def partialWriteSteps : Nat → EngineStep := fun n =>
  match n with
  | 0 => { ret := 2, err := .ErrorNone, detail := 0, out := [[101, 102]] }
  | _ => { ret := 1, err := .ErrorNone, detail := 0, out := [[103]] }

/-- Stream state for the partial-write scenario. -/
def partialWriteState : ConnState := baseState partialWriteSteps

/-- The three-byte caller buffer of the partial-write scenario. -/
def partialWriteBuf : Bytes := [10, 11, 12]

/-- Engine script for the want-input scenario: the first attempt reports
retry-want-input and queues one pending ciphertext chunk, every later attempt
makes progress. -/
def wantReadSteps : Nat → EngineStep := fun n =>
  match n with
  | 0 => { ret := -1, err := .ErrorWantRead, detail := 0, out := [[55]] }
  | _ => { ret := 1, err := .ErrorNone, detail := 0, out := [] }

/-- Stream state for the want-input scenario; its transport reads yield
zero-byte chunks. -/
def wantReadState : ConnState := baseState wantReadSteps

/-- State after the flush performed by the want-input branch. -/
def wantReadS2 : ConnState := (flush (stepState wantReadState)).2

/-- State after the single transport read of the want-input branch. -/
def wantReadS3 : ConnState := (streamRead wantReadS2).2

/-- Stream state with no pending outbound ciphertext whose transport reports
an error on flush. -/
def flushFailState : ConnState :=
  { baseState quietSteps with
      tFlushRes := fun _ => some ⟨.OtherIoError, "transport flush failure"⟩ }

/-- Engine script whose every attempt reports the syscall classification. -/
def syscallSteps : Nat → EngineStep :=
  fun _ => { ret := -1, err := .ErrorSyscall, detail := 0, out := [] }

/-- Stream state over the syscall-classification script. -/
def syscallState : ConnState := baseState syscallSteps

/-- The always-accepting verification callback. -/
def cbTrue : VerifyCallback := fun _ _ => true

/-- A context with no stored verification callback. -/
def ctxNoCb : SslCtxModel := { exData := fun _ => none, verifyMode := 0 }

/-- A context whose slot 5 stores the always-accepting callback via
set_verify. -/
def ctxWithCb : SslCtxModel := set_verify 5 1 (some cbTrue) ctxNoCb

/-- C1: For every buffer and every engine script of partial per-attempt
acceptances, if the write call of the Stream Adapter returns Ok then the byte
counts accepted by the successive retry-loop invocations sum to exactly the
buffer length: the loop tracks a byte offset, re-invokes the retry loop on the
remaining slice, and returns only once the whole buffer has been accepted.
Each accepted chunk is nonempty, and whenever at least one iteration ran, the
final state holds no pending outbound ciphertext because write_through drains
the outbound BIO after every accepted chunk. The hypothesis hbound expresses
the SSL_write contract that the session never accepts more bytes than the
remaining slice it was offered. -/
theorem write_accepts_whole_buffer (fuel ifuel : Nat) (buf : Bytes) (s s' : ConnState)
    (hok : sslStream_write fuel ifuel buf s = (.ok (), s'))
    (hbound : (writeAccepted ifuel buf fuel 0 s).sum ≤ buf.length) :
    (writeAccepted ifuel buf fuel 0 s).sum = buf.length ∧
    (∀ l ∈ writeAccepted ifuel buf fuel 0 s, 0 < l) ∧
    (0 < buf.length → s'.wbioPending = []) := by
  have hsum := writeLoop_ok_sum ifuel buf fuel 0 s s' hok
  exact ⟨by omega, fun l hl => writeAccepted_pos ifuel buf fuel 0 s l hl,
    fun hpos => writeLoop_ok_wbio ifuel buf fuel 0 s s' hpos hok⟩

/-- Witness for C1 at the partial-write scenario: a three-byte buffer is
accepted as a two-byte chunk followed by a one-byte chunk, and the total is
exactly the buffer length. -/
theorem write_accepts_whole_buffer_witness :
    (writeAccepted 1 partialWriteBuf 2 0 partialWriteState).sum = partialWriteBuf.length :=
  (write_accepts_whole_buffer 2 1 partialWriteBuf partialWriteState
    (sslStream_write 2 1 partialWriteBuf partialWriteState).2 (by rfl) (by decide)).1

/-- C2: When the session classifies the last attempt as retry-want-input, the
retry loop first flushes, which drains every pending outbound ciphertext
chunk to the transport (the outbound BIO is empty afterwards and no transport
read happened during the flush), then performs exactly one transport read,
feeds the bytes obtained into the inbound memory BIO (a zero-byte chunk
included), and retries the session operation. No end-of-stream is derived
from a zero-byte transport read: the loop simply continues. -/
theorem want_read_branch (f : Nat) (s s2 s3 : ConnState) (chunk : Bytes)
    (hret : (s.steps s.attempt).ret ≤ 0)
    (herr : (s.steps s.attempt).err = .ErrorWantRead)
    (hfl : flush (stepState s) = (.ok (), s2))
    (hrd : streamRead s2 = (.ok chunk, s3)) :
    in_retry_wrapper (f + 1) s = in_retry_wrapper f (rbioWrite chunk s3) ∧
    s2.wbioPending = [] ∧
    s2.tReads = s.tReads ∧
    s3.tReads = s2.tReads + 1 ∧
    (rbioWrite chunk s3).rbioFed = s.rbioFed ++ [chunk] := by
  have hneg : ¬ 0 < (s.steps s.attempt).ret := by omega
  refine ⟨?_, flush_ok_wbio _ _ hfl, ?_, ?_, ?_⟩
  · simp only [in_retry_wrapper, if_neg hneg, herr, hfl, hrd]
  · have hp := (flush_pres (stepState s)).2.1
    rw [hfl] at hp
    exact hp
  · have h3 : (streamRead s2).2.tReads = s2.tReads + 1 := rfl
    rw [hrd] at h3
    exact h3
  · have hp := (flush_pres (stepState s)).1
    rw [hfl] at hp
    have h3 : (streamRead s2).2.rbioFed = s2.rbioFed := rfl
    rw [hrd] at h3
    show s3.rbioFed ++ [chunk] = s.rbioFed ++ [chunk]
    rw [h3, hp]
    rfl

/-- Witness for C2 at the want-input scenario, with a zero-byte transport
read: the pending ciphertext chunk is drained, exactly one transport read
happens, the empty chunk is fed to the inbound BIO, and the loop retries. -/
theorem want_read_branch_witness :
    in_retry_wrapper 2 wantReadState = in_retry_wrapper 1 (rbioWrite [] wantReadS3) ∧
    wantReadS2.wbioPending = [] ∧
    wantReadS2.tReads = wantReadState.tReads ∧
    wantReadS3.tReads = wantReadS2.tReads + 1 ∧
    (rbioWrite [] wantReadS3).rbioFed = wantReadState.rbioFed ++ [[]] :=
  want_read_branch 1 wantReadState wantReadS2 wantReadS3 []
    (by decide) (by rfl) (by rfl) (by rfl)

/-- C3, evaluation at the failing input: a write call on a stream whose
session reports clean close (SSL_ERROR_ZERO_RETURN on the write attempt) does
not return the closed error the spec promises; the retry loop returns
Err(SslSessionClosed) and the Writer write implementation feeds it into its
catch-all unreachable!() branch, so the call fails the task instead of
returning an error value. -/
theorem write_after_close_panics :
    (sslStream_write 1 1 [0] closedState).1 = RRes.panicked := rfl

/-- C4: When the session reports clean close during a read, the read call of
the Stream Adapter returns an IoError with kind EndOfFile (the idiomatic
end-of-stream condition, distinct from ordinary errors), and the closed
condition persists in the resulting state, so every subsequent read call
yields end-of-stream again: the closed state is an idempotent terminal
state. -/
theorem read_after_close (f : Nat) (s : ConnState) (h : SessionClosedFrom s) :
    (sslStream_read (f + 1) s).1 = .err ⟨.EndOfFile, "SSL session closed"⟩ ∧
    SessionClosedFrom (sslStream_read (f + 1) s).2 := by
  obtain ⟨hret, herr⟩ := h s.attempt (Nat.le_refl _)
  have hneg : ¬ 0 < (s.steps s.attempt).ret := by omega
  have hirw : in_retry_wrapper (f + 1) s = (.err .SslSessionClosed, stepState s) := by
    simp [in_retry_wrapper, hneg, herr]
  have h2 : sslStream_read (f + 1) s = (.err ⟨.EndOfFile, "SSL session closed"⟩, stepState s) := by
    simp [sslStream_read, hirw]
  rw [h2]
  exact ⟨rfl, fun n hn => h n (Nat.le_of_succ_le hn)⟩

/-- Witness for C4: one read on a persistently closed session yields the
EndOfFile error. -/
theorem read_after_close_witness :
    (sslStream_read 1 closedState).1 = .err ⟨.EndOfFile, "SSL session closed"⟩ :=
  (read_after_close 0 closedState (fun _ _ => ⟨Int.le_refl 0, rfl⟩)).1

/-- C5, counterexample: a stream state with no pending outbound ciphertext
whose transport reports an error on flush; the flush call of the Stream
Adapter returns that error, refuting the sentence that flush with no pending
ciphertext never errors. -/
theorem flush_no_pending_claim_false :
    flushFailState.wbioPending = [] ∧
    (flush flushFailState).1 = .error ⟨.OtherIoError, "transport flush failure"⟩ :=
  ⟨rfl, rfl⟩

/-- C5, amended: for every stream state with no pending outbound ciphertext,
flush terminates (it is a total function here), writes nothing to the
transport, and returns Ok exactly when the transport flush that it always
delegates to reports no error; any error it returns is the transport flush
error, surfaced verbatim. -/
theorem flush_no_pending (s : ConnState) (h : s.wbioPending = []) :
    (flush s).2.tOut = s.tOut ∧
    (flush s).2.tWrites = s.tWrites ∧
    ((flush s).1 = .ok () ↔ s.tFlushRes s.tFlushes = none) ∧
    (∀ e, (flush s).1 = .error e → s.tFlushRes s.tFlushes = some e) := by
  have hwt : write_through s = (.ok (), s) := by
    simp [write_through, h, writeThroughGo]
  simp only [flush, hwt]
  rcases hsf : s.tFlushRes s.tFlushes with _ | e <;> simp [streamFlush, hsf]

/-- Witness for C5: with no pending ciphertext and a well-behaved transport,
flush returns Ok. -/
theorem flush_no_pending_witness : (flush quietState).1 = .ok () :=
  ((flush_no_pending quietState rfl).2.2.1).mpr rfl

/-- C6: renegotiate reports true exactly when the retry loop returns the
explicit handshake-complete code 1; it never propagates an error to the
caller, an Err outcome of the retry loop degrades to false, and an Ok outcome
with any other code degrades to false as well. -/
theorem renegotiate_reports_boolean (fuel : Nat) (s : ConnState) :
    ((renegotiate fuel s).1 = .ok true ↔ (in_retry_wrapper fuel s).1 = .ok 1) ∧
    (∀ e, (renegotiate fuel s).1 ≠ .err e) ∧
    (∀ er s1, in_retry_wrapper fuel s = (.err er, s1) → renegotiate fuel s = (.ok false, s1)) ∧
    (∀ code s1, in_retry_wrapper fuel s = (.ok code, s1) → code ≠ 1 →
      renegotiate fuel s = (.ok false, s1)) := by
  rcases hirw : in_retry_wrapper fuel s with ⟨r, s1⟩
  cases r with
  | ok code =>
    by_cases hc : code = 1
    · subst hc
      simp [renegotiate, hirw]
    · by_cases hc0 : code = 0 <;> simp [renegotiate, hirw, hc, hc0]
  | err e => simp [renegotiate, hirw]
  | panicked => simp [renegotiate, hirw]
  | diverged => simp [renegotiate, hirw]

/-- Witness for C6: a handshake script answering 1 makes renegotiate report
true. -/
theorem renegotiate_reports_boolean_witness :
    (renegotiate 1 quietState).1 = .ok true :=
  ((renegotiate_reports_boolean 1 quietState).1).mpr (by rfl)

/-- C7: the verification-bridge entry point returns the engine
pre-verification result unchanged when the owning context stores no callback
in the extension slot; when a callback is stored it is invoked with the
pre-verification boolean and the read-only validation context, and its
boolean return, converted to a C integer, becomes the result returned to the
engine; moreover a context configured through set_verify dispatches exactly
this way. -/
theorem raw_verify_dispatch (verifyIdx : Int) (ssl : SslModel) (preverify_ok : Int)
    (x : X509StoreContextModel) :
    (ssl.ctx.exData verifyIdx = none → raw_verify verifyIdx ssl preverify_ok x = preverify_ok) ∧
    (∀ v, ssl.ctx.exData verifyIdx = some v →
      raw_verify verifyIdx ssl preverify_ok x =
        (if v (decide (preverify_ok ≠ 0)) x then 1 else 0)) ∧
    (∀ mode verify c,
      raw_verify verifyIdx { ctx := set_verify verifyIdx mode verify c } preverify_ok x =
        match verify with
        | none => preverify_ok
        | some v => if v (decide (preverify_ok ≠ 0)) x then 1 else 0) := by
  refine ⟨fun h => by simp [raw_verify, h], fun v h => by simp [raw_verify, h],
    fun mode verify c => ?_⟩
  cases verify <;> simp [raw_verify, set_verify]

/-- Witness for C7: without a stored callback the pre-verification result 7
passes through; with the always-accepting callback stored through set_verify,
a failing pre-verification result 0 is overridden to 1. -/
theorem raw_verify_dispatch_witness :
    raw_verify 5 { ctx := ctxNoCb } 7 ⟨0⟩ = 7 ∧
    raw_verify 5 { ctx := ctxWithCb } 0 ⟨0⟩ = 1 :=
  ⟨(raw_verify_dispatch 5 { ctx := ctxNoCb } 7 ⟨0⟩).1 rfl,
   (raw_verify_dispatch 5 { ctx := ctxWithCb } 0 ⟨0⟩).2.1 cbTrue rfl⟩

/-- C8: for every engine-reported slot index (non-negative, as the bootstrap
assert demands) and lock count, any positive number of init calls, in
whatever order the Once primitive serializes them, reaches the same process
state: the bootstrap body ran exactly once, one lock table of the declared
size was allocated, the slot was registered, the locking callbacks are
installed, and one further init call is a no-op returning the same state, not
an error. -/
theorem init_exactly_once (newIdx : Int) (numLocks : Nat) (n : Nat)
    (hidx : 0 ≤ newIdx) (hn : 1 ≤ n) :
    initN newIdx numLocks n = some (bootedProc newIdx numLocks) ∧
    (bootedProc newIdx numLocks).bootstrapRuns = 1 ∧
    (bootedProc newIdx numLocks).lockTableAllocs = 1 ∧
    (bootedProc newIdx numLocks).lockTableSize = some numLocks ∧
    (bootedProc newIdx numLocks).verifyIdx = some newIdx ∧
    (bootedProc newIdx numLocks).callbacksInstalled = true ∧
    init newIdx numLocks (bootedProc newIdx numLocks) = some (bootedProc newIdx numLocks) := by
  have hnn : ¬ newIdx < 0 := by omega
  have hnoop : init newIdx numLocks (bootedProc newIdx numLocks) =
      some (bootedProc newIdx numLocks) := by
    simp [init, bootedProc]
  refine ⟨?_, rfl, rfl, rfl, rfl, rfl, hnoop⟩
  induction n with
  | zero => omega
  | succ m ih =>
    cases m with
    | zero =>
      simp [initN, init, initialProc, bootstrapBody, hnn, bootedProc]
    | succ k =>
      have hk := ih (by omega)
      rw [initN, hk]
      exact hnoop

/-- Witness for C8: three init calls with slot index 7 and lock count 40
reach the booted state whose bootstrap ran once. -/
theorem init_exactly_once_witness :
    initN 7 40 3 = some (bootedProc 7 40) ∧ (bootedProc 7 40).bootstrapRuns = 1 :=
  ⟨(init_exactly_once 7 40 3 (by decide) (by decide)).1,
   (init_exactly_once 7 40 3 (by decide) (by decide)).2.1⟩

/-- C9: when the engine classifies a non-positive return as anything other
than want-read, want-write, zero-return or protocol-error (so ErrorNone,
ErrorWantX509Lookup, ErrorSyscall, ErrorWantConnect or ErrorWantAccept), the
retry loop hits its catch-all unreachable!() branch: the call fails the task,
and in particular never returns an error value to the caller. -/
theorem retry_panics_on_unclassified (f : Nat) (s : ConnState)
    (hret : (s.steps s.attempt).ret ≤ 0)
    (herr : (s.steps s.attempt).err = .ErrorNone ∨
            (s.steps s.attempt).err = .ErrorWantX509Lookup ∨
            (s.steps s.attempt).err = .ErrorSyscall ∨
            (s.steps s.attempt).err = .ErrorWantConnect ∨
            (s.steps s.attempt).err = .ErrorWantAccept) :
    in_retry_wrapper (f + 1) s = (.panicked, stepState s) ∧
    (∀ e s1, in_retry_wrapper (f + 1) s ≠ (.err e, s1)) := by
  have hneg : ¬ 0 < (s.steps s.attempt).ret := by omega
  have hmain : in_retry_wrapper (f + 1) s = (.panicked, stepState s) := by
    rcases herr with h | h | h | h | h <;> simp [in_retry_wrapper, hneg, h]
  refine ⟨hmain, fun e s1 hcon => ?_⟩
  rw [hmain] at hcon
  simp at hcon

/-- Witness for C9: a syscall classification with a non-positive return makes
the retry loop fail the task. -/
theorem retry_panics_on_unclassified_witness :
    in_retry_wrapper 1 syscallState = (.panicked, stepState syscallState) :=
  (retry_panics_on_unclassified 0 syscallState (by decide)
    (Or.inr (Or.inr (Or.inl rfl)))).1

/-- C10: a write call with an empty buffer returns Ok immediately with the
state unchanged: the while loop is never entered, so no session operation is
attempted, no transport read or write happens, and every component of the
adapter state (attempt counter, BIOs, transport counters and output) is
untouched. -/
theorem write_empty_buffer_noop (fuel ifuel : Nat) (s : ConnState) :
    sslStream_write fuel ifuel [] s = (.ok (), s) := by
  cases fuel <;> simp [sslStream_write, writeLoop]

end RustSsl
